import Mathlib

/-!
# Formal model of the `ffmpeg_converter` conversion core

A shallow embedding, in Lean 4, of the conversion orchestration engine of the
`ffmpeg_converter` repository:

* `src/core/ffmpeg_core.py` — `FFmpegConverter._build_command`,
  `FFmpegConverter.convert` (duration probe, progress-stream parsing loop,
  percentage computation), `FFmpegConverter.create_thumbnail`,
  `FFmpegConverter.create_gif`;
* `src/standalone_app/app.py` — `App.run_conversion_worker` (the fail-fast
  batch worker publishing to the thread-safe queue).

Modelling conventions:

* Interactions with the outside world (does the input file exist, what the
  probing subprocess returned, the lines the encoder wrote on its progress
  channel, its exit code, its stderr) are inputs of the model, collected in
  environment structures (`ConvEnv`, `ThumbEnv`, `GifEnv`).
* Python floats are modelled as rationals (`ℚ`); Python `int` as `Int`.
* Python exceptions are modelled by `Except`; the events delivered to the
  progress callback and the messages put on the worker queue are returned as
  explicit lists, in emission order.
* Python string primitives (`str.strip`, `str.split`, `int(...)`,
  `os.path.basename`, `os.path.splitext`, substring membership `in`) are
  re-implemented below by structural recursion on the character list, so that
  every definition evaluates by kernel reduction.
-/

/-! ## Python string primitives -/

/-- The whitespace characters stripped by Python's `str.strip()`. -/
def isPySpace (c : Char) : Bool :=
  c = ' ' || c = '\t' || c = '\n' || c = '\r' || c = '\x0b' || c = '\x0c'

/-- Python `str.strip()`: remove leading and trailing whitespace. -/
def pyStrip (s : String) : String :=
  String.mk (((s.data.dropWhile isPySpace).reverse.dropWhile isPySpace).reverse)

/-- Auxiliary for `pySplit`: split a character list at every occurrence of
`sep`, accumulating the current chunk in reverse. -/
def pySplitAux (sep : Char) : List Char → List Char → List (List Char)
  | [], acc => [acc.reverse]
  | c :: cs, acc =>
    if c = sep then acc.reverse :: pySplitAux sep cs []
    else pySplitAux sep cs (c :: acc)

/-- Python `str.split(sep)` for a one-character separator: split at every
occurrence, keeping empty chunks (`"".split('=') == ['']`). -/
def pySplit (s : String) (sep : Char) : List String :=
  (pySplitAux sep s.data []).map String.mk

/-- Auxiliary for `pyToInt`: value of a nonempty all-digit character list. -/
def pyDigitsAux : List Char → Nat → Option Nat
  | [], acc => some acc
  | c :: cs, acc =>
    if c.isDigit then pyDigitsAux cs (acc * 10 + (c.toNat - '0'.toNat)) else none

/-- Value of a nonempty all-digit character list, `none` otherwise. -/
def pyDigits : List Char → Option Nat
  | [] => none
  | cs => pyDigitsAux cs 0

/-- Python `int(s)`: optional surrounding whitespace, an optional sign, then
decimal digits; any other shape raises `ValueError`, modelled as `none`.
(Python additionally accepts underscore digit grouping, which the progress
stream never produces and which is not modelled.) -/
def pyToInt (s : String) : Option Int :=
  match (pyStrip s).data with
  | '-' :: cs => (pyDigits cs).map fun n => -(n : Int)
  | '+' :: cs => (pyDigits cs).map fun n => (n : Int)
  | cs => (pyDigits cs).map fun n => (n : Int)

/-- Does `pat` occur as a contiguous run of `l`? (Python substring `in`.) -/
def subOccurs (pat : List Char) : List Char → Bool
  | [] => pat.isEmpty
  | c :: cs => pat.isPrefixOf (c :: cs) || subOccurs pat cs

/-- Python `pat in s` (substring membership). -/
def strContains (s pat : String) : Bool := subOccurs pat.data s.data

/-- Python `os.path.basename` (POSIX): everything after the last `'/'`. -/
def basename (p : String) : String := ((pySplit p '/').getLast?).getD ""

/-- The index of the last `'.'` in a character list, if any. -/
def lastDotIdx (cs : List Char) : Option Nat :=
  ((List.range cs.length).filter fun i => cs.get? i = some '.').getLast?

/-- The first component of Python `os.path.splitext` on a bare filename:
strip the extension at the last dot, where leading dots do not start an
extension (`splitext(".bashrc") == (".bashrc", "")`). -/
def splitext_base (name : String) : String :=
  let cs := name.data
  let lead := (cs.takeWhile fun c => c = '.').length
  match lastDotIdx (cs.drop lead) with
  | none => name
  | some i => String.mk (cs.take (lead + i))

/-- Python `os.path.join` for the two-argument POSIX case. -/
def path_join (a b : String) : String :=
  if b.data.take 1 = ['/'] then b
  else if a = "" then b
  else if a.data.getLast? = some '/' then a ++ b
  else a ++ "/" ++ b

/-! ## `FFmpegConverter._build_command` (src/core/ffmpeg_core.py:142-185)

A pure function from the request parameters to the ffmpeg argument list.
`hw_accel = none` models Python `None`; the Python truthiness test
`if hw_accel and hw_accel != 'none'` is false for `None`, `''` and `'none'`. -/

def build_command (ffmpeg_path input_path output_path video_codec quality_mode : String)
    (quality_value : Int) (audio_codec : String) (hw_accel : Option String) :
    List String :=
  let is_hw_encode := strContains video_codec "nvenc" || strContains video_codec "qsv"
    || strContains video_codec "videotoolbox"
  let command := [ffmpeg_path, "-y"]
  let command := command ++
    match hw_accel with
    | some h =>
      if h ≠ "" ∧ h ≠ "none" then
        let accel_method := if h = "nvenc" then "cuda" else h
        ["-hwaccel", accel_method] ++
          (if accel_method = "cuda" then ["-hwaccel_output_format", "cuda"] else [])
      else []
    | none => []
  let command := command ++ ["-i", input_path]
  let command := command ++ ["-c:v", video_codec]
  let command := command ++
    (if is_hw_encode then ["-pix_fmt", "yuv420p"] else ["-preset", "medium"])
  let command := command ++
    (if quality_mode = "crf" then ["-crf", toString quality_value]
     else if quality_mode = "cbr" then
       let bitrate := toString quality_value ++ "M"
       ["-b:v", bitrate, "-minrate", bitrate, "-maxrate", bitrate, "-bufsize", "2M"]
     else if quality_mode = "cq" then ["-rc", "vbr", "-cq", toString quality_value]
     else [])
  let command := command ++ ["-c:a", audio_codec]
  let command := command ++ (if audio_codec ≠ "copy" then ["-b:a", "192k"] else [])
  command ++ ["-v", "quiet", "-stats", "-progress", "pipe:1", output_path]

/-! ## `FFmpegConverter.convert` (src/core/ffmpeg_core.py:188-251)

The progress dictionary `progress_data` is modelled as a function
`String → Option String`; the stdout of the encoder process as the list of
its lines (newline already removed — the code strips each line anyway). -/

/-- The `progress_data` dictionary of the conversion loop. -/
def PDict := String → Option String

/-- The empty dictionary `progress_data = {}` (ffmpeg_core.py:224). -/
def emptyDict : PDict := fun _ => none

/-- Python `progress_data[k] = v`. -/
def dictInsert (m : PDict) (k v : String) : PDict :=
  fun q => if q = k then some v else m q

/-- Python `progress_data.get(k, d)`. -/
def dictGetD (m : PDict) (k d : String) : String := (m k).getD d

/-- One iteration of `parts = line.strip().split('='); if len(parts) == 2:
progress_data[parts[0]] = parts[1]` (ffmpeg_core.py:226-228). -/
def parseLine (m : PDict) (line : String) : PDict :=
  match pySplit (pyStrip line) '=' with
  | [k, v] => dictInsert m k v
  | _ => m

/-- Python `int(x)` applied to a float: truncation toward zero. -/
def pyInt (q : ℚ) : Int := if q < 0 then ⌈q⌉ else ⌊q⌋

/-- `min(100, int(elapsed_ms / (duration_s * 1_000_000)))`
(ffmpeg_core.py:232). Note the quotient is NOT scaled by 100 and is NOT
clamped below. -/
def pct (duration_s : ℚ) (elapsed_ms : Int) : Int :=
  min 100 (pyInt ((elapsed_ms : ℚ) / (duration_s * 1000000)))

/-- The snapshot message
`f"frame={...} | bitrate={...} | speed={...}"` (ffmpeg_core.py:233-235). -/
def snapshotMessage (m : PDict) : String :=
  "frame=" ++ dictGetD m "frame" "N/A" ++ " | bitrate=" ++ dictGetD m "bitrate" "N/A"
    ++ " | speed=" ++ dictGetD m "speed" "N/A"

/-- The `for line in process.stdout` loop of `convert`
(ffmpeg_core.py:224-237).  Per line: update the dictionary; then, if
`out_time_ms` is present and the duration is positive, parse the stored
elapsed value (`ValueError` on a malformed value, modelled by `.error`,
carrying the callback invocations already delivered) and deliver one
`(percentage, message)` callback invocation.  Returns the final dictionary
and the invocations in order. -/
def runProgressLoop (duration_s : ℚ) (m : PDict) :
    List String → Except (List (Int × String)) (PDict × List (Int × String))
  | [] => .ok (m, [])
  | line :: rest =>
    let m' := parseLine m line
    match m' "out_time_ms" with
    | some s =>
      if 0 < duration_s then
        match pyToInt s with
        | none => .error []
        | some elapsed_ms =>
          let ev := (pct duration_s elapsed_ms, snapshotMessage m')
          match runProgressLoop duration_s m' rest with
          | .ok (mf, evs) => .ok (mf, ev :: evs)
          | .error evs => .error (ev :: evs)
      else runProgressLoop duration_s m' rest
    | none => runProgressLoop duration_s m' rest

/-- The callback invocations of a finished or crashed progress loop. -/
def loopEvents : Except (List (Int × String)) (PDict × List (Int × String)) →
    List (Int × String)
  | .ok (_, evs) => evs
  | .error evs => evs

/-- Did the progress loop finish without raising? -/
def loopOk : Except (List (Int × String)) (PDict × List (Int × String)) → Bool
  | .ok _ => true
  | .error _ => false

deriving instance DecidableEq for Except

/-- The Python exceptions `convert` can raise. -/
inductive PyExc
  | fileNotFound (msg : String)
  | ffmpegError (msg : String)
  | valueError (msg : String)
deriving DecidableEq

/-- Python `str(e)` on a caught exception. -/
def excMessage : PyExc → String
  | .fileNotFound m => m
  | .ffmpegError m => m
  | .valueError m => m

/-- Exceptions that fall through to app.py's `except Exception` clause
rather than its `except (FFmpegError, FileNotFoundError)` clause. -/
def isUnexpected : PyExc → Bool
  | .valueError _ => true
  | _ => false

/-- The environment of one `convert` call: every interaction with the
outside world, as the code observes it.
`probe_result` summarises `get_video_duration` (ffmpeg_core.py:72-82): the
`FFmpegError` message if the probing subprocess could not be run, exited
non-zero, or printed an unparseable duration; otherwise the duration in
seconds.  `final_stats_match` summarises the `stats_regex.search` on the
drained stderr (ffmpeg_core.py:207,246-248): the `time`, `bitrate` and
`speed` capture groups when the regex matches. -/
structure ConvEnv where
  input_exists : Bool
  probe_result : Except String ℚ
  stdout_lines : List String
  returncode : Int
  stderr_output : String
  final_stats_match : Option (String × String × String)

/-- Arguments of `convert`, with the Python defaults
(ffmpeg_core.py:188-194). -/
structure ConvertArgs where
  input_path : String
  output_path : String
  video_codec : String := "libx265"
  quality_mode : String := "crf"
  quality_value : Int := 23
  audio_codec : String := "copy"
  hw_accel : Option String := none

/-- What one `convert` call did: its return value or exception, the
progress-callback invocations in order, and whether the duration probe ran,
a command was built, and the encoder process was spawned. -/
structure ConvertOutcome where
  result : Except PyExc Bool
  events : List (Int × String)
  probeInvoked : Bool
  commandBuilt : Option (List String)
  spawned : Bool
deriving DecidableEq

/-- `FFmpegConverter.convert` (ffmpeg_core.py:188-251), for a caller that
passes a progress callback (both the worker and the CLI do).
Order of operations, as in the source: the existence check raises
`FileNotFoundError`; then the duration probe (its `FFmpegError`
propagates — there is no handler around it); then the command is built and
the process spawned; the progress loop runs (a malformed `out_time_ms`
raises `ValueError`); after draining, a non-zero exit status raises
`FFmpegError`; otherwise one final `(100, ...)` callback is delivered and
`True` is returned. -/
def convert (env : ConvEnv) (a : ConvertArgs) (ffmpeg_path : String) : ConvertOutcome :=
  if ¬env.input_exists then
    { result := .error (.fileNotFound ("Input file not found: " ++ a.input_path)),
      events := [], probeInvoked := false, commandBuilt := none, spawned := false }
  else
    match env.probe_result with
    | .error m =>
      { result := .error (.ffmpegError m), events := [],
        probeInvoked := true, commandBuilt := none, spawned := false }
    | .ok duration_s =>
      let command := build_command ffmpeg_path a.input_path a.output_path
        a.video_codec a.quality_mode a.quality_value a.audio_codec a.hw_accel
      match runProgressLoop duration_s emptyDict env.stdout_lines with
      | .error evs =>
        { result := .error (.valueError "invalid literal for int() with base 10"),
          events := evs, probeInvoked := true, commandBuilt := some command,
          spawned := true }
      | .ok (_, evs) =>
        if env.returncode ≠ 0 then
          { result := .error (.ffmpegError ("FFmpeg failed with return code "
              ++ toString env.returncode ++ ":\n" ++ pyStrip env.stderr_output)),
            events := evs, probeInvoked := true, commandBuilt := some command,
            spawned := true }
        else
          let final_stats :=
            match env.final_stats_match with
            | some (t, b, s) =>
              "Done! Final stats: time=" ++ t ++ " bitrate=" ++ b ++ " speed=" ++ s
            | none => "Conversion complete!"
          { result := .ok true, events := evs ++ [(100, final_stats)],
            probeInvoked := true, commandBuilt := some command, spawned := true }

/-- The `out_time_ms` fragment values of a progress stream, in order: for
each line of the form `out_time_ms=<int>` (after stripping, split on `=`,
exactly two parts), the parsed integer.  Used to state assumptions about
the upstream tool's reporting. -/
def outTimeValues (lines : List String) : List Int :=
  lines.filterMap fun line =>
    match pySplit (pyStrip line) '=' with
    | [k, v] => if k = "out_time_ms" then pyToInt v else none
    | _ => none

/-! ## `FFmpegConverter.create_thumbnail` (src/core/ffmpeg_core.py:84-98) -/

/-- Environment of a `create_thumbnail` call: does the input exist, and the
result of the single ffmpeg invocation (`FFmpegError` message on failure). -/
structure ThumbEnv where
  input_exists : Bool
  run_result : Except String Unit

/-- What a `create_thumbnail` call did: return value or exception, and the
subprocess invocations issued, in order. -/
structure ThumbOutcome where
  result : Except PyExc Bool
  invocations : List (List String)
deriving DecidableEq

/-- `FFmpegConverter.create_thumbnail` (ffmpeg_core.py:84-98). -/
def create_thumbnail (env : ThumbEnv) (input_path output_path timestamp : String)
    (ffmpeg_path : String) : ThumbOutcome :=
  if ¬env.input_exists then
    { result := .error (.fileNotFound ("Input file not found: " ++ input_path)),
      invocations := [] }
  else
    let command := [ffmpeg_path, "-ss", timestamp, "-i", input_path,
      "-vframes", "1", "-q:v", "2", "-y", output_path]
    match env.run_result with
    | .error m => { result := .error (.ffmpegError m), invocations := [command] }
    | .ok _ => { result := .ok true, invocations := [command] }

/-! ## `FFmpegConverter.create_gif` (src/core/ffmpeg_core.py:100-139) -/

/-- Environment of a `create_gif` call: does the input exist, the path of
the `NamedTemporaryFile` palette, and the results of the palette and GIF
invocations (`FFmpegError` message on non-zero exit or missing tool). -/
structure GifEnv where
  input_exists : Bool
  palette_path : String
  palette_run : Except String Unit
  gif_run : Except String Unit

/-- What a `create_gif` call did: return value or exception, the subprocess
invocations issued in order, whether the temporary palette file was created
(`NamedTemporaryFile(delete=False)`), and whether the `finally` block
removed it (it was created with `delete=False`, so it exists when the
`finally` block runs). -/
structure GifOutcome where
  result : Except PyExc Bool
  invocations : List (List String)
  tempCreated : Bool
  tempRemoved : Bool
deriving DecidableEq

/-- The `palette_command` of `create_gif` (ffmpeg_core.py:110-118).
`duration` is a Python number rendered by `str(...)`; it is modelled as an
integer (the CLI accepts floats, whose rendering differs only in the
decimal point). -/
def paletteCommand (env : GifEnv) (input_path start_time : String) (duration : Int)
    (fps width : Int) (ffmpeg_path : String) : List String :=
  [ffmpeg_path, "-y", "-ss", start_time, "-t", toString duration, "-i", input_path,
    "-vf", "fps=" ++ toString fps ++ ",scale=" ++ toString width
      ++ ":-1:flags=lanczos,palettegen",
    env.palette_path]

/-- The `gif_command` of `create_gif` (ffmpeg_core.py:122-131). -/
def gifCommand (env : GifEnv) (input_path output_path start_time : String)
    (duration : Int) (fps width : Int) (ffmpeg_path : String) : List String :=
  [ffmpeg_path, "-y", "-ss", start_time, "-t", toString duration, "-i", input_path,
    "-i", env.palette_path,
    "-filter_complex", "fps=" ++ toString fps ++ ",scale=" ++ toString width
      ++ ":-1:flags=lanczos[x];[x][1:v]paletteuse",
    output_path]

/-- `FFmpegConverter.create_gif` (ffmpeg_core.py:100-139): existence check;
create the temporary palette file; run the palette command; if it
succeeded, run the GIF command; in every path after creation, the `finally`
block removes the palette file. -/
def create_gif (env : GifEnv) (input_path output_path start_time : String)
    (duration : Int) (fps width : Int) (ffmpeg_path : String) : GifOutcome :=
  if ¬env.input_exists then
    { result := .error (.fileNotFound ("Input file not found: " ++ input_path)),
      invocations := [], tempCreated := false, tempRemoved := false }
  else
    let palette_command := paletteCommand env input_path start_time duration fps width ffmpeg_path
    match env.palette_run with
    | .error m =>
      { result := .error (.ffmpegError m), invocations := [palette_command],
        tempCreated := true, tempRemoved := true }
    | .ok _ =>
      let gif_command := gifCommand env input_path output_path start_time duration fps width ffmpeg_path
      match env.gif_run with
      | .error m =>
        { result := .error (.ffmpegError m),
          invocations := [palette_command, gif_command],
          tempCreated := true, tempRemoved := true }
      | .ok _ =>
        { result := .ok true, invocations := [palette_command, gif_command],
          tempCreated := true, tempRemoved := true }

/-! ## `App.run_conversion_worker` (src/standalone_app/app.py:303-330)

The worker thread walks the file list in order; per file it derives the
output path, puts a `(-1, "(i/N) Converting <base>...")` status tuple on the
queue, and calls `convert` with `self.progress_callback` (which puts each
`(percentage, message)` pair on the queue).  The first exception puts an
`("ERROR", ...)` tuple and breaks.  After the loop — reached both after a
break and after a full pass, since `queue.Queue()` is unbounded and
`progress_queue.full()` is therefore always `False` — it either announces
shutdown and invokes it, or puts `("DONE", "All tasks complete!")`. -/

/-- One message put on `progress_queue`: a `(percentage-or-minus-one,
message)` tuple, an `("ERROR", msg)` tuple, or a `("DONE", msg)` tuple.
(The `("HW_ACCEL", ...)` tuple comes from the separate encoder-scan thread,
not from this worker.) -/
inductive QMsg
  | num (p : Int) (msg : String)
  | err (msg : String)
  | done (msg : String)
deriving DecidableEq

/-- One queued file together with the environment its conversion will see. -/
structure WorkerFile where
  filepath : String
  env : ConvEnv

/-- The `conversion_options` dictionary built by `start_export`
(app.py:291-299). -/
structure WorkerOptions where
  video_codec : String
  quality_mode : String
  quality_value : Int
  audio_codec : String
  hw_accel : Option String
  output_dir : String
  shutdown : Bool

/-- The `ConvertArgs` the worker passes for one file (app.py:307-317):
output path `os.path.join(output_dir, f"{base}_converted.mp4")` where
`base` is the input basename without extension. -/
def workerArgs (opts : WorkerOptions) (filepath : String) : ConvertArgs :=
  let base := splitext_base (basename filepath)
  { input_path := filepath,
    output_path := path_join opts.output_dir (base ++ "_converted.mp4"),
    video_codec := opts.video_codec,
    quality_mode := opts.quality_mode,
    quality_value := opts.quality_value,
    audio_codec := opts.audio_codec,
    hw_accel := opts.hw_accel }

/-- `f"({i+1}/{total_files}) Converting {base}..."` (app.py:309). -/
def startMsg (i total : Nat) (base : String) : String :=
  "(" ++ toString i ++ "/" ++ toString total ++ ") Converting " ++ base ++ "..."

/-- The `("ERROR", ...)` message for a caught exception (app.py:319-324). -/
def workerErrMsg (filepath : String) (e : PyExc) : String :=
  if isUnexpected e then "An unexpected error occurred: " ++ excMessage e
  else "ERROR on " ++ basename filepath ++ ": " ++ excMessage e

/-- The `for i, filepath in enumerate(files)` loop of
`run_conversion_worker` (app.py:305-324).  Returns the queue messages in
order, the outcome of each `convert` actually invoked, and whether the loop
ended in a break. -/
def workerLoop (ffmpeg_path : String) (opts : WorkerOptions) (total : Nat) :
    Nat → List WorkerFile → List QMsg × List ConvertOutcome × Bool
  | _, [] => ([], [], false)
  | i, f :: rest =>
    let out := convert f.env (workerArgs opts f.filepath) ffmpeg_path
    let startM := QMsg.num (-1) (startMsg (i + 1) total (splitext_base (basename f.filepath)))
    let evs := out.events.map fun e => QMsg.num e.1 e.2
    match out.result with
    | .ok _ =>
      let r := workerLoop ffmpeg_path opts total (i + 1) rest
      (startM :: evs ++ r.1, out :: r.2.1, r.2.2)
    | .error ex =>
      (startM :: evs ++ [QMsg.err (workerErrMsg f.filepath ex)], [out], true)

/-- The complete result of one worker run. -/
structure WorkerOut where
  msgs : List QMsg
  outcomes : List ConvertOutcome
  shutdownInvoked : Bool
deriving DecidableEq

/-- `App.run_conversion_worker` (app.py:303-330).  After the loop, both
post-loop branches are guarded by `not self.progress_queue.full()`, which
is always true for the unbounded `queue.Queue()`; with the shutdown option
set the worker announces and invokes `initiate_shutdown` (and puts no
`DONE`), otherwise it puts `("DONE", "All tasks complete!")` — in both
cases regardless of whether the loop broke on an error. -/
def run_conversion_worker (ffmpeg_path : String) (files : List WorkerFile)
    (opts : WorkerOptions) : WorkerOut :=
  let r := workerLoop ffmpeg_path opts files.length 0 files
  if opts.shutdown then
    { msgs := r.1 ++ [QMsg.num (-1) "All tasks complete! Shutting down in 60 seconds..."],
      outcomes := r.2.1, shutdownInvoked := true }
  else
    { msgs := r.1 ++ [QMsg.done "All tasks complete!"],
      outcomes := r.2.1, shutdownInvoked := false }

/-- The per-request contribution to the queue: the start status then the
progress events of that request's `convert` call. -/
def requestBlock (ffmpeg_path : String) (opts : WorkerOptions) (total : Nat)
    (i : Nat) (f : WorkerFile) : List QMsg :=
  QMsg.num (-1) (startMsg (i + 1) total (splitext_base (basename f.filepath))) ::
    ((convert f.env (workerArgs opts f.filepath) ffmpeg_path).events.map
      fun e => QMsg.num e.1 e.2)

/-! ## Concrete environments used by witnesses and counterexamples -/

/-- Default arguments: `convert('in.mp4', 'out.mp4')`. -/
def argsDefault : ConvertArgs := { input_path := "in.mp4", output_path := "out.mp4" }

/-- A conversion whose input exists, probe succeeds (1 s), encoder exits 0
without writing progress lines. -/
def envOkEmpty : ConvEnv :=
  { input_exists := true, probe_result := .ok 1, stdout_lines := [],
    returncode := 0, stderr_output := "", final_stats_match := none }

/-- A conversion whose input exists but whose duration probe raises
`FFmpegError("test error")` (the scenario of test 15 in
src/tests/test_ffmpeg_core.py). -/
def envProbeFails : ConvEnv :=
  { input_exists := true, probe_result := .error "test error", stdout_lines := [],
    returncode := 0, stderr_output := "", final_stats_match := none }

/-- A conversion whose input does not exist. -/
def envMissingInput : ConvEnv :=
  { input_exists := false, probe_result := .ok 1, stdout_lines := [],
    returncode := 0, stderr_output := "", final_stats_match := none }

/-- A successful conversion whose progress stream carries a negative
`out_time_ms` fragment (ffmpeg emits such values when the starting
timestamp is not yet known). -/
def envNegOutTime : ConvEnv :=
  { input_exists := true, probe_result := .ok 1,
    stdout_lines := ["out_time_ms=-5000000"],
    returncode := 0, stderr_output := "", final_stats_match := none }

/-- A GIF creation whose palette invocation fails. -/
def gifEnvPaletteFails : GifEnv :=
  { input_exists := true, palette_path := "/tmp/pal.png",
    palette_run := .error "palette failed", gif_run := .ok () }

/-- A GIF creation whose palette invocation succeeds and whose GIF
invocation fails. -/
def gifEnvGifFails : GifEnv :=
  { input_exists := true, palette_path := "/tmp/pal.png",
    palette_run := .ok (), gif_run := .error "gif failed" }

/-- A GIF creation whose input does not exist. -/
def gifEnvMissing : GifEnv :=
  { input_exists := false, palette_path := "/tmp/pal.png",
    palette_run := .ok (), gif_run := .ok () }

/-- A thumbnail creation whose input does not exist. -/
def thumbEnvMissing : ThumbEnv := { input_exists := false, run_result := .ok () }

/-- Worker options with the shutdown box unchecked. -/
def optsNoShutdown : WorkerOptions :=
  { video_codec := "libx265", quality_mode := "crf", quality_value := 23,
    audio_codec := "copy", hw_accel := none, output_dir := "/out", shutdown := false }

/-- Worker options with the shutdown box checked. -/
def optsShutdown : WorkerOptions := { optsNoShutdown with shutdown := true }

/-! ## Helper lemmas -/

/-- If the input exists and the probe succeeds, `convert` builds the
command and spawns the process, whatever then happens. -/
theorem convert_spawns (env : ConvEnv) (a : ConvertArgs) (fp : String) (d : ℚ)
    (hex : env.input_exists = true) (hpr : env.probe_result = .ok d) :
    (convert env a fp).spawned = true ∧
    (convert env a fp).commandBuilt = some (build_command fp a.input_path
      a.output_path a.video_codec a.quality_mode a.quality_value a.audio_codec
      a.hw_accel) := by
  simp only [convert, hex, hpr, Bool.not_true, Bool.false_eq_true, if_false]
  rcases runProgressLoop d emptyDict env.stdout_lines with evs | ⟨mf, evs⟩
  · exact ⟨rfl, rfl⟩
  · by_cases hrc : env.returncode ≠ 0 <;> simp [hrc]

/-! ## C10 — missing input is rejected before any external invocation -/

/-- C10: for every call to `convert`, `create_thumbnail` or `create_gif`
whose input path does not exist, the operation raises `FileNotFoundError`
before any external tool invocation: the duration probe is not run, no
command is built, no process is spawned, no progress event is delivered,
and no temporary file is created. -/
theorem missing_input_rejected
    (cenv : ConvEnv) (a : ConvertArgs) (tenv : ThumbEnv) (genv : GifEnv)
    (ip op ts st fp : String) (dur fps w : Int)
    (hc : cenv.input_exists = false) (ht : tenv.input_exists = false)
    (hg : genv.input_exists = false) :
    (convert cenv a fp).result =
      .error (.fileNotFound ("Input file not found: " ++ a.input_path)) ∧
    (convert cenv a fp).probeInvoked = false ∧
    (convert cenv a fp).commandBuilt = none ∧
    (convert cenv a fp).spawned = false ∧
    (convert cenv a fp).events = [] ∧
    (create_thumbnail tenv ip op ts fp).result =
      .error (.fileNotFound ("Input file not found: " ++ ip)) ∧
    (create_thumbnail tenv ip op ts fp).invocations = [] ∧
    (create_gif genv ip op st dur fps w fp).result =
      .error (.fileNotFound ("Input file not found: " ++ ip)) ∧
    (create_gif genv ip op st dur fps w fp).invocations = [] ∧
    (create_gif genv ip op st dur fps w fp).tempCreated = false := by
  simp [convert, create_thumbnail, create_gif, hc, ht, hg]

/-- C10 witness: the three operations on a nonexistent `in.mp4`. -/
theorem missing_input_rejected_witness :
    envMissingInput.input_exists = false ∧
    (convert envMissingInput argsDefault "ffmpeg").result =
      .error (.fileNotFound "Input file not found: in.mp4") ∧
    (convert envMissingInput argsDefault "ffmpeg").probeInvoked = false ∧
    (convert envMissingInput argsDefault "ffmpeg").spawned = false ∧
    (create_thumbnail thumbEnvMissing "in.mp4" "o.gif" "00:00:10" "ffmpeg").invocations = [] ∧
    (create_gif gifEnvMissing "in.mp4" "o.gif" "00:00:01" 3 15 480 "ffmpeg").invocations = [] ∧
    (create_gif gifEnvMissing "in.mp4" "o.gif" "00:00:01" 3 15 480 "ffmpeg").tempCreated = false := by
  obtain ⟨h1, h2, _, h4, _, _, h7, _, h9, h10⟩ :=
    missing_input_rejected envMissingInput argsDefault thumbEnvMissing gifEnvMissing
      "in.mp4" "o.gif" "00:00:10" "00:00:01" "ffmpeg" 3 15 480 rfl rfl rfl
  exact ⟨rfl, h1, h2, h4, h7, h9, h10⟩

/-! ## C5 — the default CRF command (corrected)

The built list does contain `-c:v libx265`, `-preset medium`, `-crf 23`,
`-c:a copy`, and its final elements are the verbosity/stats/progress flags
followed by the output path — but the overwrite flag `-y` is the second
element, directly after the executable, NOT adjacent to the output path at
the end (ffmpeg_core.py:144 vs. 183). -/

/-- C5 counterexample: the concrete command for
`{codec: libx265, mode: crf, value: 23, audio: copy, hwaccel: none}`.  Its
last two elements are `pipe:1` and the output path, so the list does not
end with the overwrite flag followed by the output path. -/
theorem build_command_crf_not_end_overwrite :
    build_command "ffmpeg" "in.mp4" "out.mp4" "libx265" "crf" 23 "copy" none =
      ["ffmpeg", "-y", "-i", "in.mp4", "-c:v", "libx265", "-preset", "medium",
       "-crf", "23", "-c:a", "copy", "-v", "quiet", "-stats", "-progress",
       "pipe:1", "out.mp4"] ∧
    List.isSuffixOf ["-y", "out.mp4"]
      (build_command "ffmpeg" "in.mp4" "out.mp4" "libx265" "crf" 23 "copy" none)
      = false := by
  decide

/-- C5 amended: for every executable path, input path and output path, the
command built for `{codec: libx265, mode: crf, value: 23, audio: copy,
hwaccel: none}` contains `-c:v libx265`, `-preset medium`, `-crf 23` and
`-c:a copy`, the overwrite flag is the element directly after the
executable, and the list ends with
`-v quiet -stats -progress pipe:1 <output>`. -/
theorem build_command_crf_default_shape (fp ip op : String) :
    build_command fp ip op "libx265" "crf" 23 "copy" none =
      [fp, "-y", "-i", ip, "-c:v", "libx265", "-preset", "medium",
       "-crf", "23", "-c:a", "copy", "-v", "quiet", "-stats", "-progress",
       "pipe:1", op] ∧
    ["-c:v", "libx265"] <:+: build_command fp ip op "libx265" "crf" 23 "copy" none ∧
    ["-preset", "medium"] <:+: build_command fp ip op "libx265" "crf" 23 "copy" none ∧
    ["-crf", "23"] <:+: build_command fp ip op "libx265" "crf" 23 "copy" none ∧
    ["-c:a", "copy"] <:+: build_command fp ip op "libx265" "crf" 23 "copy" none ∧
    ["-v", "quiet", "-stats", "-progress", "pipe:1", op] <:+
      build_command fp ip op "libx265" "crf" 23 "copy" none := by
  have h : build_command fp ip op "libx265" "crf" 23 "copy" none =
      [fp, "-y", "-i", ip, "-c:v", "libx265", "-preset", "medium",
       "-crf", "23", "-c:a", "copy", "-v", "quiet", "-stats", "-progress",
       "pipe:1", op] := rfl
  refine ⟨h, ?_, ?_, ?_, ?_, ?_⟩ <;> rw [h]
  · exact ⟨[fp, "-y", "-i", ip],
      ["-preset", "medium", "-crf", "23", "-c:a", "copy", "-v", "quiet",
       "-stats", "-progress", "pipe:1", op], by simp⟩
  · exact ⟨[fp, "-y", "-i", ip, "-c:v", "libx265"],
      ["-crf", "23", "-c:a", "copy", "-v", "quiet", "-stats", "-progress",
       "pipe:1", op], by simp⟩
  · exact ⟨[fp, "-y", "-i", ip, "-c:v", "libx265", "-preset", "medium"],
      ["-c:a", "copy", "-v", "quiet", "-stats", "-progress", "pipe:1", op], by simp⟩
  · exact ⟨[fp, "-y", "-i", ip, "-c:v", "libx265", "-preset", "medium",
      "-crf", "23"],
      ["-v", "quiet", "-stats", "-progress", "pipe:1", op], by simp⟩
  · exact ⟨[fp, "-y", "-i", ip, "-c:v", "libx265", "-preset", "medium",
      "-crf", "23", "-c:a", "copy"], by simp⟩

/-! ## C9 — invalid quality modes are not rejected (corrected)

Neither `_build_command` nor `convert` contains any validation: a quality
mode outside `{crf, cbr, cq}` falls through the `if/elif` chain
(ffmpeg_core.py:169-175), the command is built without any rate-control
flag, and the encoder process is spawned.  No `ValidationError` exists in
the repository (the CLI's argparse `choices` guards only the command-line
entry point). -/

/-- C9 counterexample: quality mode `"vbr"` (outside `{crf, cbr, cq}`) is
not rejected: `convert` spawns the encoder and returns success, and the
built command simply lacks all rate-control flags. -/
theorem invalid_mode_not_rejected :
    (convert envOkEmpty { argsDefault with quality_mode := "vbr" } "ffmpeg").spawned
      = true ∧
    (convert envOkEmpty { argsDefault with quality_mode := "vbr" } "ffmpeg").result
      = .ok true ∧
    build_command "ffmpeg" "in.mp4" "out.mp4" "libx265" "vbr" 23 "copy" none =
      ["ffmpeg", "-y", "-i", "in.mp4", "-c:v", "libx265", "-preset", "medium",
       "-c:a", "copy", "-v", "quiet", "-stats", "-progress", "pipe:1", "out.mp4"] := by
  decide

/-- C9 amended: a request whose quality mode lies outside `{crf, cbr, cq}`
is NOT rejected — no exception is raised for it: the command is built with
no rate-control flag at all and, whenever the input exists and the probe
succeeds, the encoder process is spawned. -/
theorem invalid_mode_no_validation (fp ip op : String) (qv : Int) (mode : String)
    (h1 : mode ≠ "crf") (h2 : mode ≠ "cbr") (h3 : mode ≠ "cq")
    (env : ConvEnv) (d : ℚ) (hex : env.input_exists = true)
    (hpr : env.probe_result = .ok d) :
    build_command fp ip op "libx265" mode qv "copy" none =
      [fp, "-y", "-i", ip, "-c:v", "libx265", "-preset", "medium",
       "-c:a", "copy", "-v", "quiet", "-stats", "-progress", "pipe:1", op] ∧
    (convert env { input_path := ip, output_path := op,
                   quality_mode := mode, quality_value := qv } fp).spawned = true ∧
    (convert env { input_path := ip, output_path := op,
                   quality_mode := mode, quality_value := qv } fp).commandBuilt =
      some (build_command fp ip op "libx265" mode qv "copy" none) := by
  refine ⟨?_, ?_, ?_⟩
  · simp only [build_command, h1, h2, h3, if_false]
    rfl
  · exact (convert_spawns env _ fp d hex hpr).1
  · exact (convert_spawns env _ fp d hex hpr).2

/-- C9 witness: mode `"bogus"` with an existing input and a successful
probe. -/
theorem invalid_mode_no_validation_witness :
    envOkEmpty.input_exists = true ∧ envOkEmpty.probe_result = .ok 1 ∧
    build_command "ffmpeg" "in.mp4" "out.mp4" "libx265" "bogus" 23 "copy" none =
      ["ffmpeg", "-y", "-i", "in.mp4", "-c:v", "libx265", "-preset", "medium",
       "-c:a", "copy", "-v", "quiet", "-stats", "-progress", "pipe:1", "out.mp4"] ∧
    (convert envOkEmpty { input_path := "in.mp4", output_path := "out.mp4",
                          quality_mode := "bogus", quality_value := 23 }
      "ffmpeg").spawned = true := by
  obtain ⟨ha, hb, _⟩ := invalid_mode_no_validation "ffmpeg" "in.mp4" "out.mp4" 23
    "bogus" (by decide) (by decide) (by decide) envOkEmpty 1 rfl rfl
  exact ⟨rfl, rfl, ha, hb⟩

/-! ## C8 — GIF creation: two invocations and palette cleanup (corrected)

When the FIRST (palette) invocation fails, `self._run_command` raises
before the second command is ever run (ffmpeg_core.py:119), so only ONE
tool invocation is issued — the claim's "exactly two ... regardless of
whether either invocation succeeds or fails" holds only once the palette
invocation has succeeded.  The `finally` block removes the temporary
palette file in every path after its creation. -/

/-- C8 counterexample: when the palette invocation fails, exactly one tool
invocation is issued (not two); the palette file is still removed. -/
theorem gif_one_invocation_on_palette_failure :
    (create_gif gifEnvPaletteFails "in.mp4" "out.gif" "00:00:01" 3 15 480
      "ffmpeg").invocations.length = 1 ∧
    (create_gif gifEnvPaletteFails "in.mp4" "out.gif" "00:00:01" 3 15 480
      "ffmpeg").result = .error (.ffmpegError "palette failed") ∧
    (create_gif gifEnvPaletteFails "in.mp4" "out.gif" "00:00:01" 3 15 480
      "ffmpeg").tempRemoved = true := by
  decide

/-- C8 amended: for an existing input, `create_gif` issues the palette
invocation first; if that invocation fails, it is the only one (the GIF
invocation never runs) and the error propagates; if it succeeds, exactly
two invocations are issued in order — palette then GIF — whatever the GIF
invocation's outcome; in every such run the temporary palette file is
created and then removed by the `finally` block, regardless of either
invocation's success or failure. -/
theorem gif_two_phase (env : GifEnv) (ip op st : String) (dur fps w : Int)
    (fp : String) (hex : env.input_exists = true) :
    (create_gif env ip op st dur fps w fp).tempCreated = true ∧
    (create_gif env ip op st dur fps w fp).tempRemoved = true ∧
    (∀ m, env.palette_run = .error m →
      (create_gif env ip op st dur fps w fp).invocations =
        [paletteCommand env ip st dur fps w fp] ∧
      (create_gif env ip op st dur fps w fp).result = .error (.ffmpegError m)) ∧
    (∀ u, env.palette_run = .ok u →
      (create_gif env ip op st dur fps w fp).invocations =
        [paletteCommand env ip st dur fps w fp,
         gifCommand env ip op st dur fps w fp]) := by
  rcases hp : env.palette_run with m | u
  · simp [create_gif, hex, hp]
  · rcases hg : env.gif_run with m' | u' <;> simp [create_gif, hex, hp, hg]

/-- C8 witness: palette succeeds, GIF invocation fails — two invocations in
order, palette removed despite the failure. -/
theorem gif_two_phase_witness :
    gifEnvGifFails.input_exists = true ∧ gifEnvGifFails.palette_run = .ok () ∧
    gifEnvGifFails.gif_run = .error "gif failed" ∧
    (create_gif gifEnvGifFails "in.mp4" "out.gif" "00:00:01" 3 15 480
      "ffmpeg").invocations =
      [paletteCommand gifEnvGifFails "in.mp4" "00:00:01" 3 15 480 "ffmpeg",
       gifCommand gifEnvGifFails "in.mp4" "out.gif" "00:00:01" 3 15 480 "ffmpeg"] ∧
    (create_gif gifEnvGifFails "in.mp4" "out.gif" "00:00:01" 3 15 480
      "ffmpeg").tempRemoved = true := by
  obtain ⟨_, hrm, _, hok⟩ := gif_two_phase gifEnvGifFails "in.mp4" "out.gif"
    "00:00:01" 3 15 480 "ffmpeg" rfl
  exact ⟨rfl, rfl, rfl, hok () rfl, hrm⟩

/-! ## C3 — a failed duration probe is FATAL in the code (code bug)

The claim (and §4.2/§7 of the specification, and test 15 of
src/tests/test_ffmpeg_core.py, which expects conversion to proceed with a
"Warning: Could not get video duration" message) says probe failure is
non-fatal.  In the code, `convert` calls `get_video_duration`
(ffmpeg_core.py:201) with no exception handler: the `FFmpegError`
propagates, no command is built, no process is spawned, no warning and no
−1-percentage snapshot is ever delivered. -/

/-- C3: evaluating `convert` at the failing input of test 15 (input exists,
probe raises `FFmpegError("test error")`): the exception propagates, the
encoder never runs and no progress event — in particular no −1 sentinel
and no warning — is emitted. -/
theorem probe_failure_aborts_conversion :
    convert envProbeFails argsDefault "ffmpeg" =
      { result := .error (.ffmpegError "test error"), events := [],
        probeInvoked := true, commandBuilt := none, spawned := false } := by
  decide

/-! ## C2 — DONE is NOT reserved for full success (code bug)

After the loop, `run_conversion_worker` reaches the post-loop block both
after a break and after a full pass (app.py:326-330); since the unbounded
queue is never full, with shutdown unchecked it puts
`("DONE", "All tasks complete!")` even right after having put the terminal
`("ERROR", ...)`; and with shutdown checked it invokes the shutdown without
ever publishing `DONE`, even on full success.  Both contradict the claim
(which matches the evident intent: the GUI then shows a success dialog
"All video conversions have been completed." directly after the error
dialog). -/

/-- C2: evaluating the worker (a) on a single failing request with shutdown
unchecked — the `DONE` completion event is published immediately after
the terminal `ERROR`; (b) on a single successful request with shutdown
checked — the shutdown action is invoked although no `DONE` was ever
published. -/
theorem done_after_error_and_shutdown_without_done :
    (run_conversion_worker "ffmpeg" [⟨"in.mp4", envProbeFails⟩] optsNoShutdown).msgs =
      [QMsg.num (-1) "(1/1) Converting in...",
       QMsg.err "ERROR on in.mp4: test error",
       QMsg.done "All tasks complete!"] ∧
    (run_conversion_worker "ffmpeg" [⟨"in.mp4", envOkEmpty⟩] optsShutdown).msgs =
      [QMsg.num (-1) "(1/1) Converting in...",
       QMsg.num 100 "Conversion complete!",
       QMsg.num (-1) "All tasks complete! Shutting down in 60 seconds..."] ∧
    (run_conversion_worker "ffmpeg" [⟨"in.mp4", envOkEmpty⟩] optsShutdown).shutdownInvoked
      = true := by
  decide

/-! ## Progress-loop lemmas (for C4, C6, C7) -/

/-- The parsed current `out_time_ms` entry of the dictionary. -/
def curOut (m : PDict) : Option Int := (m "out_time_ms").bind pyToInt

/-- `dictInsert` looks up the inserted key. -/
theorem dictInsert_self (m : PDict) (k v : String) : dictInsert m k v k = some v := by
  simp [dictInsert]

/-- `dictInsert` leaves other keys unchanged. -/
theorem dictInsert_ne (m : PDict) (k v q : String) (h : q ≠ k) :
    dictInsert m k v q = m q := by
  simp [dictInsert, h]

/-- Without a positive duration the loop emits nothing and never raises. -/
theorem runProgressLoop_nonpos (d : ℚ) (hd : ¬0 < d) :
    ∀ (ls : List String) (m : PDict),
      ∃ mf, runProgressLoop d m ls = .ok (mf, []) := by
  intro ls
  induction ls with
  | nil => exact fun m => ⟨m, rfl⟩
  | cons line rest ih =>
    intro m
    obtain ⟨mf, hmf⟩ := ih (parseLine m line)
    rcases h : parseLine m line "out_time_ms" with _ | s
    · exact ⟨mf, by simp [runProgressLoop, h, hmf]⟩
    · exact ⟨mf, by simp [runProgressLoop, h, hd, hmf]⟩

/-- Step equation: a line that leaves `out_time_ms` absent emits nothing. -/
theorem runProgressLoop_cons_none (d : ℚ) (m : PDict) (line : String)
    (rest : List String) (h : parseLine m line "out_time_ms" = none) :
    runProgressLoop d m (line :: rest) = runProgressLoop d (parseLine m line) rest := by
  simp only [runProgressLoop, h]

/-- Step equation: with a non-positive duration no emission happens. -/
theorem runProgressLoop_cons_nonpos (d : ℚ) (m : PDict) (line : String)
    (rest : List String) (s : String) (h : parseLine m line "out_time_ms" = some s)
    (hd : ¬0 < d) :
    runProgressLoop d m (line :: rest) = runProgressLoop d (parseLine m line) rest := by
  simp only [runProgressLoop, h, if_neg hd]

/-- Step equation: a malformed stored `out_time_ms` raises `ValueError`. -/
theorem runProgressLoop_cons_bad (d : ℚ) (m : PDict) (line : String)
    (rest : List String) (s : String) (h : parseLine m line "out_time_ms" = some s)
    (hd : 0 < d) (hi : pyToInt s = none) :
    runProgressLoop d m (line :: rest) = .error [] := by
  simp only [runProgressLoop, h, if_pos hd, hi]

/-- Step equation: with `out_time_ms` present, a positive duration and a
well-formed value, the line emits exactly one snapshot in front of the
rest of the run. -/
theorem runProgressLoop_cons_emit (d : ℚ) (m : PDict) (line : String)
    (rest : List String) (s : String) (e : Int)
    (h : parseLine m line "out_time_ms" = some s) (hd : 0 < d)
    (hi : pyToInt s = some e) :
    runProgressLoop d m (line :: rest) =
      match runProgressLoop d (parseLine m line) rest with
      | .ok (mf, evs) =>
        .ok (mf, (pct d e, snapshotMessage (parseLine m line)) :: evs)
      | .error evs =>
        .error ((pct d e, snapshotMessage (parseLine m line)) :: evs) := by
  simp only [runProgressLoop, h, if_pos hd, hi]

/-- The event-list form of `runProgressLoop_cons_emit`. -/
theorem loopEvents_cons_emit (d : ℚ) (m : PDict) (line : String)
    (rest : List String) (s : String) (e : Int)
    (h : parseLine m line "out_time_ms" = some s) (hd : 0 < d)
    (hi : pyToInt s = some e) :
    loopEvents (runProgressLoop d m (line :: rest)) =
      (pct d e, snapshotMessage (parseLine m line)) ::
        loopEvents (runProgressLoop d (parseLine m line) rest) := by
  rw [runProgressLoop_cons_emit d m line rest s e h hd hi]
  rcases runProgressLoop d (parseLine m line) rest with evs | ⟨mf, evs⟩ <;> rfl

/-- Every percentage the loop delivers is of the form
`min 100 (pyInt (elapsed / (d * 1000000)))` — in particular at most 100. -/
theorem runProgressLoop_pct_shape (d : ℚ) :
    ∀ (ls : List String) (m : PDict) (ev : Int × String),
      ev ∈ loopEvents (runProgressLoop d m ls) →
      ∃ e : Int, ev.1 = pct d e := by
  intro ls
  induction ls with
  | nil => intro m ev h; simp [runProgressLoop, loopEvents] at h
  | cons line rest ih =>
    intro m ev hev
    rcases h : parseLine m line "out_time_ms" with _ | s
    · rw [runProgressLoop_cons_none d m line rest h] at hev
      exact ih _ ev hev
    · by_cases hd : 0 < d
      · rcases hi : pyToInt s with _ | e
        · rw [runProgressLoop_cons_bad d m line rest s h hd hi] at hev
          simp [loopEvents] at hev
        · rw [loopEvents_cons_emit d m line rest s e h hd hi] at hev
          rcases List.mem_cons.mp hev with rfl | hev
          · exact ⟨e, rfl⟩
          · exact ih _ ev hev
      · rw [runProgressLoop_cons_nonpos d m line rest s h hd] at hev
        exact ih _ ev hev

/-- Each delivered percentage is at most 100. -/
theorem pct_le_100 (d : ℚ) (e : Int) : pct d e ≤ 100 := min_le_left _ _

/-- `pyInt` (truncation toward zero) is monotone. -/
theorem pyInt_mono {a b : ℚ} (h : a ≤ b) : pyInt a ≤ pyInt b := by
  unfold pyInt
  by_cases ha : a < 0 <;> by_cases hb : b < 0
  · rw [if_pos ha, if_pos hb]; exact Int.ceil_le_ceil h
  · rw [if_pos ha, if_neg hb]
    have h1 : ⌈a⌉ ≤ (0 : ℤ) := Int.ceil_le.mpr (by exact_mod_cast ha.le)
    have h2 : (0 : ℤ) ≤ ⌊b⌋ := Int.le_floor.mpr (by exact_mod_cast not_lt.mp hb)
    exact le_trans h1 h2
  · exact absurd (lt_of_le_of_lt h hb) ha
  · rw [if_neg ha, if_neg hb]; exact Int.floor_le_floor h

/-- The emitted percentage is monotone in the elapsed value. -/
theorem pct_mono (d : ℚ) (hd : 0 < d) {e₁ e₂ : Int} (h : e₁ ≤ e₂) :
    pct d e₁ ≤ pct d e₂ := by
  unfold pct
  refine min_le_min le_rfl (pyInt_mono ?_)
  have hpos : (0 : ℚ) < d * 1000000 := by positivity
  exact div_le_div_of_nonneg_right (by exact_mod_cast h) hpos.le

/-- Effect of one line on the `out_time_ms` entry and on the recorded
elapsed-value stream: either the line leaves the entry (and the stream)
unchanged, or it stores a new raw value `v`, which contributes `pyToInt v`
to the stream. -/
theorem parseLine_effect (m : PDict) (line : String) (rest : List String) :
    (parseLine m line "out_time_ms" = m "out_time_ms" ∧
     curOut (parseLine m line) = curOut m ∧
     outTimeValues (line :: rest) = outTimeValues rest) ∨
    (∃ v, parseLine m line "out_time_ms" = some v ∧
     curOut (parseLine m line) = pyToInt v ∧
     outTimeValues (line :: rest) = (pyToInt v).toList ++ outTimeValues rest) := by
  rcases hsp : pySplit (pyStrip line) '=' with _ | ⟨k, _ | ⟨v, _ | _⟩⟩
  · left
    constructor
    · simp [parseLine, hsp]
    constructor
    · simp [parseLine, hsp]
    · simp [outTimeValues, List.filterMap_cons, hsp]
  · left
    constructor
    · simp [parseLine, hsp]
    constructor
    · simp [parseLine, hsp]
    · simp [outTimeValues, List.filterMap_cons, hsp]
  · by_cases hk : k = "out_time_ms"
    · subst hk
      right
      refine ⟨v, ?_, ?_, ?_⟩
      · simp [parseLine, hsp, dictInsert_self]
      · simp [parseLine, hsp, curOut, dictInsert_self]
      · rcases hv : pyToInt v with _ | e <;>
          simp [outTimeValues, List.filterMap_cons, hsp, hv]
    · have hk' : "out_time_ms" ≠ k := fun hh => hk hh.symm
      left
      constructor
      · simp only [parseLine, hsp]; exact dictInsert_ne m k v _ hk'
      constructor
      · simp only [parseLine, hsp, curOut]; rw [dictInsert_ne m k v _ hk']
      · simp [outTimeValues, List.filterMap_cons, hsp, hk]
  · left
    constructor
    · simp [parseLine, hsp]
    constructor
    · simp [parseLine, hsp]
    · simp [outTimeValues, List.filterMap_cons, hsp]

/-- Monotonicity of the emitted percentages: if the elapsed-time fragment
values of the stream are non-decreasing (extended on the left by the
currently stored elapsed value, if any), then the emitted percentages are
non-decreasing (extended on the left by the percentage of the stored
value). -/
theorem runProgressLoop_chain (d : ℚ) (hd : 0 < d) :
    ∀ (ls : List String) (m : PDict),
      List.Chain' (· ≤ ·) ((curOut m).toList ++ outTimeValues ls) →
      List.Chain' (· ≤ ·) (((curOut m).map (pct d)).toList
        ++ (loopEvents (runProgressLoop d m ls)).map Prod.fst) := by
  intro ls
  induction ls with
  | nil =>
    intro m _
    rcases curOut m with _ | c <;> simp [runProgressLoop, loopEvents]
  | cons line rest ih =>
    intro m hch
    rcases parseLine_effect m line rest with ⟨hout, hcur, htv⟩ | ⟨v, hout, hcur, htv⟩
    · -- the line does not touch out_time_ms
      rw [htv] at hch
      rcases hmo : m "out_time_ms" with _ | s
      · -- nothing stored yet: no emission
        rw [runProgressLoop_cons_none d m line rest (hout.trans hmo)]
        have hc : curOut m = none := by unfold curOut; rw [hmo]; rfl
        have := ih (parseLine m line) (by rw [hcur]; exact hch)
        rw [hcur] at this
        exact this
      · rcases hpi : pyToInt s with _ | c
        · -- stored value malformed: the loop raises at once
          rw [runProgressLoop_cons_bad d m line rest s (hout.trans hmo) hd hpi]
          have hc : curOut m = none := by unfold curOut; rw [hmo]; simpa using hpi
          rw [hc]
          simp [loopEvents]
        · -- stored value well-formed: re-emit its percentage
          have hc : curOut m = some c := by unfold curOut; rw [hmo]; simpa using hpi
          rw [loopEvents_cons_emit d m line rest s c (hout.trans hmo) hd hpi]
          have hrec := ih (parseLine m line) (by rw [hcur]; exact hch)
          rw [hcur, hc] at hrec
          rw [hc]
          simp only [Option.map_some, Option.toList_some, List.map_cons,
            List.singleton_append, List.cons_append] at hrec ⊢
          exact List.chain'_cons'.mpr ⟨fun y hy => by
            simp at hy; omega, hrec⟩
    · -- the line stores a new raw value v
      rw [htv] at hch
      rcases hpi : pyToInt v with _ | e
      · -- new value malformed: the loop raises at once
        rw [runProgressLoop_cons_bad d m line rest v hout hd hpi]
        simp only [loopEvents, List.map_nil, List.append_nil]
        rcases curOut m with _ | c
        · exact List.chain'_nil
        · exact List.chain'_singleton _
      · -- new value well-formed: emit its percentage
        rw [hpi] at hch htv
        rw [loopEvents_cons_emit d m line rest v e hout hd hpi]
        have hrec := ih (parseLine m line)
          (by rw [hcur, hpi]
              exact (List.chain'_append.mp hch).2.1)
        rw [hcur, hpi] at hrec
        have hrec' : List.Chain' (· ≤ ·) (pct d e ::
            List.map Prod.fst (loopEvents (runProgressLoop d (parseLine m line) rest))) := by
          simpa using hrec
        rcases hc : curOut m with _ | c
        · show List.Chain' (· ≤ ·) (pct d e ::
            List.map Prod.fst (loopEvents (runProgressLoop d (parseLine m line) rest)))
          exact hrec'
        · have hce : c ≤ e := by
            rw [hc] at hch
            have h3 := (List.chain'_append.mp hch).2.2
            simp at h3
            exact h3
          show List.Chain' (· ≤ ·) (pct d c :: pct d e ::
            List.map Prod.fst (loopEvents (runProgressLoop d (parseLine m line) rest)))
          exact List.chain'_cons'.mpr ⟨fun y hy => by
            simp at hy
            rw [← hy]
            exact pct_mono d hd hce, hrec'⟩

/-- Case analysis of `convert` once the input exists and the probe
succeeded: on success the events are the loop's emissions followed by the
final 100-snapshot; on every failure they are exactly the loop's
emissions. -/
theorem convert_cases (env : ConvEnv) (a : ConvertArgs) (fp : String) (d : ℚ)
    (hex : env.input_exists = true) (hpr : env.probe_result = .ok d) :
    (∃ msg, (convert env a fp).events =
        loopEvents (runProgressLoop d emptyDict env.stdout_lines) ++ [(100, msg)] ∧
      (convert env a fp).result = .ok true) ∨
    ((convert env a fp).events =
        loopEvents (runProgressLoop d emptyDict env.stdout_lines) ∧
      ∀ b, (convert env a fp).result ≠ .ok b) := by
  rcases hl : runProgressLoop d emptyDict env.stdout_lines with evs | ⟨mf, evs⟩
  · right
    constructor
    · simp [convert, hex, hpr, hl, loopEvents]
    · intro b
      simp [convert, hex, hpr, hl]
  · by_cases hrc : env.returncode = 0
    · left
      refine ⟨(match env.final_stats_match with
        | some (t, b, s) =>
          "Done! Final stats: time=" ++ t ++ " bitrate=" ++ b ++ " speed=" ++ s
        | none => "Conversion complete!"), ?_, ?_⟩ <;>
        simp [convert, hex, hpr, hl, hrc, loopEvents]
    · right
      constructor
      · simp [convert, hex, hpr, hl, hrc, loopEvents]
      · intro b
        simp [convert, hex, hpr, hl, hrc]

/-- The loop's emitted percentage list is a chain and bounded by 100. -/
theorem loop_map_fst_chain (d : ℚ) (ls : List String)
    (hmono : List.Chain' (· ≤ ·) (outTimeValues ls)) :
    List.Chain' (· ≤ ·) ((loopEvents (runProgressLoop d emptyDict ls)).map Prod.fst) ∧
    ∀ p ∈ (loopEvents (runProgressLoop d emptyDict ls)).map Prod.fst, p ≤ 100 := by
  constructor
  · by_cases hd : 0 < d
    · have h := runProgressLoop_chain d hd ls emptyDict
        (by simpa [curOut, emptyDict] using hmono)
      simpa [curOut, emptyDict] using h
    · obtain ⟨mf, hmf⟩ := runProgressLoop_nonpos d hd ls emptyDict
      rw [hmf]
      exact List.chain'_nil
  · intro p hp
    obtain ⟨ev, hev, rfl⟩ := List.mem_map.mp hp
    obtain ⟨e, he⟩ := runProgressLoop_pct_shape d ls emptyDict ev hev
    rw [he]
    exact pct_le_100 d e

/-! ## C4 — percentages are non-decreasing and end at 100 on success -/

/-- C4: provided the upstream tool reports non-decreasing elapsed-time
fragment values (an assumption about ffmpeg, not about this code), the
percentages delivered to the progress callback are monotonically
non-decreasing, and on success the sequence ends with the single terminal
value 100 (on failure the exception is the terminal event; no 100-snapshot
is appended). -/
theorem convert_percentages_monotone (env : ConvEnv) (a : ConvertArgs) (fp : String)
    (hmono : List.Chain' (· ≤ ·) (outTimeValues env.stdout_lines)) :
    List.Chain' (· ≤ ·) ((convert env a fp).events.map Prod.fst) ∧
    ((convert env a fp).result = .ok true →
      ((convert env a fp).events.map Prod.fst).getLast? = some 100) := by
  by_cases hex : env.input_exists
  · rcases hpr : env.probe_result with m | d
    · constructor
      · simp [convert, hex, hpr]
      · intro hok
        simp [convert, hex, hpr] at hok
    · obtain ⟨hchain, hle⟩ := loop_map_fst_chain d env.stdout_lines hmono
      rcases convert_cases env a fp d (by simpa using hex) hpr with
        ⟨msg, hevs, hok⟩ | ⟨hevs, hnok⟩
      · constructor
        · rw [hevs, List.map_append]
          refine List.chain'_append.mpr ⟨hchain, List.chain'_singleton _, ?_⟩
          intro x hx y hy
          simp only [List.map_cons, List.map_nil, List.head?_cons,
            Option.mem_def, Option.some.injEq] at hy
          subst hy
          exact hle x (List.mem_of_mem_getLast? hx)
        · intro _
          rw [hevs, List.map_append]
          exact List.getLast?_concat _
      · constructor
        · rw [hevs]
          exact hchain
        · intro hok
          exact absurd hok (hnok true)
  · constructor
    · simp [convert, hex]
    · intro hok
      simp [convert, hex] at hok

/-- An environment whose progress stream carries two increasing
`out_time_ms` fragments. -/
def envTwoSteps : ConvEnv :=
  { input_exists := true, probe_result := .ok 2,
    stdout_lines := ["out_time_ms=1000000", "frame=5", "out_time_ms=2000000"],
    returncode := 0, stderr_output := "", final_stats_match := none }

/-- C4 witness: a successful conversion over a monotone three-line stream. -/
theorem convert_percentages_monotone_witness :
    List.Chain' (· ≤ ·) (outTimeValues envTwoSteps.stdout_lines) ∧
    (List.Chain' (· ≤ ·) ((convert envTwoSteps argsDefault "ffmpeg").events.map Prod.fst) ∧
     ((convert envTwoSteps argsDefault "ffmpeg").result = .ok true →
       ((convert envTwoSteps argsDefault "ffmpeg").events.map Prod.fst).getLast?
         = some 100)) := by
  have hmono : List.Chain' (· ≤ ·) (outTimeValues envTwoSteps.stdout_lines) := by
    have h : outTimeValues envTwoSteps.stdout_lines = [1000000, 2000000] := by decide
    rw [h]
    exact List.chain'_pair.mpr (by norm_num)
  exact ⟨hmono, convert_percentages_monotone envTwoSteps argsDefault "ffmpeg" hmono⟩

/-! ## C6 — snapshots are per LINE, not per elapsed-time update (corrected)

The emission guard `if 'out_time_ms' in progress_data and duration_s > 0`
(ffmpeg_core.py:230) tests the accumulated dictionary, not the fragment the
current line carried: once an elapsed-time fragment has been stored, EVERY
subsequent stdout line — frame/bitrate/speed fragments included — triggers
one more callback invocation. -/

/-- C6 counterexample: a stream with exactly one `out_time_ms` update
followed by a `frame` fragment produces TWO snapshots, not one. -/
theorem snapshot_without_elapsed_update :
    (outTimeValues ["out_time_ms=1000000", "frame=10"]).length = 1 ∧
    loopOk (runProgressLoop 2 emptyDict ["out_time_ms=1000000", "frame=10"]) = true ∧
    (loopEvents (runProgressLoop 2 emptyDict ["out_time_ms=1000000", "frame=10"])).length
      = 2 := by
  refine ⟨by decide, by rfl, by decide⟩

/-- C6 amended: with a positive known duration, once an `out_time_ms` entry
is stored in the progress dictionary the loop emits exactly ONE snapshot
per remaining input line (whether or not that line updates the
elapsed-time field), provided no fragment is malformed (no `ValueError`). -/
theorem one_snapshot_per_line (d : ℚ) (hd : 0 < d) :
    ∀ (ls : List String) (m : PDict),
      (m "out_time_ms").isSome = true →
      loopOk (runProgressLoop d m ls) = true →
      (loopEvents (runProgressLoop d m ls)).length = ls.length := by
  intro ls
  induction ls with
  | nil =>
    intro m _ _
    simp [runProgressLoop, loopEvents]
  | cons line rest ih =>
    intro m hsome hok
    obtain ⟨s0, hs0⟩ := Option.isSome_iff_exists.mp hsome
    have hsome' : ∃ s, parseLine m line "out_time_ms" = some s := by
      rcases parseLine_effect m line rest with ⟨hout, _, _⟩ | ⟨v, hout, _, _⟩
      · exact ⟨s0, hout.trans hs0⟩
      · exact ⟨v, hout⟩
    obtain ⟨s, hs⟩ := hsome'
    rcases hpi : pyToInt s with _ | e
    · rw [runProgressLoop_cons_bad d m line rest s hs hd hpi] at hok
      simp [loopOk] at hok
    · rw [loopEvents_cons_emit d m line rest s e hs hd hpi, List.length_cons]
      have hok' : loopOk (runProgressLoop d (parseLine m line) rest) = true := by
        rw [runProgressLoop_cons_emit d m line rest s e hs hd hpi] at hok
        rcases hrec : runProgressLoop d (parseLine m line) rest with evs | ⟨mf, evs⟩
        · rw [hrec] at hok
          simp [loopOk] at hok
        · simp [loopOk]
      have hsome'' : (parseLine m line "out_time_ms").isSome = true := by
        rw [hs]
        rfl
      rw [ih (parseLine m line) hsome'' hok', List.length_cons]

/-- C6 witness: after `out_time_ms=7` is stored, two fragment lines that do
not update the elapsed time still produce two snapshots. -/
theorem one_snapshot_per_line_witness :
    (0 : ℚ) < 2 ∧
    ((dictInsert emptyDict "out_time_ms" "7") "out_time_ms").isSome = true ∧
    loopOk (runProgressLoop 2 (dictInsert emptyDict "out_time_ms" "7")
      ["frame=1", "speed=2x"]) = true ∧
    (loopEvents (runProgressLoop 2 (dictInsert emptyDict "out_time_ms" "7")
      ["frame=1", "speed=2x"])).length = 2 :=
  ⟨by decide, by rfl, by rfl,
    one_snapshot_per_line 2 (by decide) ["frame=1", "speed=2x"]
      (dictInsert emptyDict "out_time_ms" "7") (by rfl) (by rfl)⟩

/-! ## C7 — percentage formula: truncated, clamped above but NOT below
(corrected)

`min(100, int(elapsed_ms / (duration_s * 1_000_000)))` clamps only at the
upper bound; a negative elapsed-time fragment yields a negative
percentage. -/

/-- C7 counterexample: a successful conversion over the stream
`out_time_ms=-5000000` (duration 1 s) delivers the percentage −5, which is
below 0 — the claimed lower clamp does not exist. -/
theorem negative_percentage_emitted :
    (convert envNegOutTime argsDefault "ffmpeg").events.map Prod.fst =
      [pct 1 (-5000000), 100] ∧
    pct 1 (-5000000) = -5 ∧ pct 1 (-5000000) < 0 := by
  have hv : pct 1 (-5000000) = -5 := by
    unfold pct pyInt
    have h : ((-5000000 : Int) : ℚ) / ((1 : ℚ) * 1000000) = ((-5 : ℤ) : ℚ) := by
      norm_num
    rw [h, if_pos (by norm_num : ((-5 : ℤ) : ℚ) < 0), Int.ceil_intCast]
    decide
  exact ⟨rfl, hv, by rw [hv]; decide⟩

/-- C7 amended: every percentage delivered while the duration is known is
either the final 100 or `min 100 (pyInt (elapsed / (duration * 1000000)))`
for some elapsed value — truncated toward zero and clamped above at 100
(never more than 100), with no lower clamp. -/
theorem emitted_percentage_formula (env : ConvEnv) (a : ConvertArgs) (fp : String)
    (d : ℚ) (hex : env.input_exists = true) (hpr : env.probe_result = .ok d) :
    ∀ ev ∈ (convert env a fp).events,
      ev.1 ≤ 100 ∧ (ev.1 = 100 ∨ ∃ e : Int, ev.1 = pct d e) := by
  intro ev hev
  rcases convert_cases env a fp d hex hpr with ⟨msg, hevs, _⟩ | ⟨hevs, _⟩
  · rw [hevs] at hev
    rcases List.mem_append.mp hev with h | h
    · obtain ⟨e, he⟩ := runProgressLoop_pct_shape d env.stdout_lines emptyDict ev h
      exact ⟨he ▸ pct_le_100 d e, .inr ⟨e, he⟩⟩
    · simp only [List.mem_singleton] at h
      subst h
      exact ⟨le_refl _, .inl rfl⟩
  · rw [hevs] at hev
    obtain ⟨e, he⟩ := runProgressLoop_pct_shape d env.stdout_lines emptyDict ev hev
    exact ⟨he ▸ pct_le_100 d e, .inr ⟨e, he⟩⟩

/-- C7 witness: the formula/upper-clamp theorem applied to the two-step
stream. -/
theorem emitted_percentage_formula_witness :
    envTwoSteps.input_exists = true ∧ envTwoSteps.probe_result = .ok 2 ∧
    ∀ ev ∈ (convert envTwoSteps argsDefault "ffmpeg").events,
      ev.1 ≤ 100 ∧ (ev.1 = 100 ∨ ∃ e : Int, ev.1 = pct 2 e) :=
  ⟨rfl, rfl, emitted_percentage_formula envTwoSteps argsDefault "ffmpeg" 2 rfl rfl⟩

/-! ## C1 — fail-fast batch -/

/-- The `workerLoop` run on a batch whose first failure is request `k`
(0-based): the queue receives exactly one start-status block per request
`0..k` (so `k+1` "Converting" statuses), each followed by that request's
progress events, then exactly one `ERROR` message; the loop breaks, so
requests after `k` are never started — `convert` is invoked exactly `k+1`
times. -/
theorem workerLoop_fail_fast (fp : String) (opts : WorkerOptions) (total : Nat) :
    ∀ (k : Nat) (files : List WorkerFile) (i : Nat) (fk : WorkerFile) (e : PyExc),
      files[k]? = some fk →
      (∀ j f, j < k → files[j]? = some f →
        (convert f.env (workerArgs opts f.filepath) fp).result = .ok true) →
      (convert fk.env (workerArgs opts fk.filepath) fp).result = .error e →
      workerLoop fp opts total i files =
        ((((files.take (k+1)).enumFrom i).map
            fun p => requestBlock fp opts total p.1 p.2).flatten
          ++ [QMsg.err (workerErrMsg fk.filepath e)],
         (files.take (k+1)).map (fun f => convert f.env (workerArgs opts f.filepath) fp),
         true) := by
  intro k
  induction k with
  | zero =>
    intro files i fk e hk hok hfail
    rcases files with _ | ⟨f0, rest⟩
    · simp at hk
    · rw [List.getElem?_cons_zero] at hk
      injection hk with hk
      subst hk
      simp only [workerLoop, hfail, List.take_succ_cons, List.take_zero,
        List.enumFrom, List.map_cons, List.map_nil, List.flatten,
        requestBlock, List.append_nil]
  | succ k ih =>
    intro files i fk e hk hok hfail
    rcases files with _ | ⟨f0, rest⟩
    · simp at hk
    · have h0 : (convert f0.env (workerArgs opts f0.filepath) fp).result = .ok true :=
        hok 0 f0 (Nat.succ_pos k) (by rw [List.getElem?_cons_zero])
      rw [List.getElem?_cons_succ] at hk
      have hok' : ∀ j f, j < k → rest[j]? = some f →
          (convert f.env (workerArgs opts f.filepath) fp).result = .ok true := by
        intro j f hj hf
        exact hok (j+1) f (Nat.succ_lt_succ hj) (by rw [List.getElem?_cons_succ]; exact hf)
      have hr := ih rest (i+1) fk e hk hok' hfail
      simp only [workerLoop, h0, hr, List.take_succ_cons, List.enumFrom,
        List.map_cons, List.flatten_cons, requestBlock]
      simp [List.append_assoc]

/-- C1: for every batch run whose first failing request has 0-based index
`k` (so every earlier request converts successfully), the worker publishes
exactly the start-status-plus-progress block of each of the requests
`0..k` — hence exactly `k+1` "(i/N) Converting ..." STATUS messages —
followed by exactly one terminal `ERROR` message (and the unconditional
post-loop completion message, see C2); request `k+1` never starts: exactly
`k+1` `convert` calls are made, so no command is built and no process is
spawned for any later request; the worker contains no file-removal
operation, so the outputs already produced by the successful requests
`0..k-1` (whose outcomes all report success) are left in place. -/
theorem worker_fail_fast (fp : String) (files : List WorkerFile)
    (opts : WorkerOptions) (k : Nat) (fk : WorkerFile) (e : PyExc)
    (hk : files[k]? = some fk)
    (hok : ∀ j f, j < k → files[j]? = some f →
      (convert f.env (workerArgs opts f.filepath) fp).result = .ok true)
    (hfail : (convert fk.env (workerArgs opts fk.filepath) fp).result = .error e) :
    (run_conversion_worker fp files opts).msgs =
      ((((files.take (k+1)).enumFrom 0).map
          fun p => requestBlock fp opts files.length p.1 p.2).flatten
        ++ [QMsg.err (workerErrMsg fk.filepath e)])
        ++ (if opts.shutdown then
              [QMsg.num (-1) "All tasks complete! Shutting down in 60 seconds..."]
            else [QMsg.done "All tasks complete!"]) ∧
    (run_conversion_worker fp files opts).outcomes =
      (files.take (k+1)).map (fun f => convert f.env (workerArgs opts f.filepath) fp) := by
  have h := workerLoop_fail_fast fp opts files.length k files 0 fk e hk hok hfail
  unfold run_conversion_worker
  rw [h]
  by_cases hs : opts.shutdown <;> simp [hs]

/-- The three-request batch of the specification's test scenario: request 2
(index 1) fails, requests 1 and 3 would succeed. -/
def filesBatch : List WorkerFile :=
  [⟨"a.mp4", envOkEmpty⟩, ⟨"b.mp4", envProbeFails⟩, ⟨"c.mp4", envOkEmpty⟩]

/-- C1 witness: the batch of 3 whose request 2 fails — the queue holds the
two request blocks and one `ERROR`; only two `convert` calls were made
(request 3 never starts). -/
theorem worker_fail_fast_witness :
    (run_conversion_worker "ffmpeg" filesBatch optsNoShutdown).msgs =
      ((((filesBatch.take 2).enumFrom 0).map
          fun p => requestBlock "ffmpeg" optsNoShutdown filesBatch.length p.1 p.2).flatten
        ++ [QMsg.err (workerErrMsg "b.mp4" (.ffmpegError "test error"))])
        ++ [QMsg.done "All tasks complete!"] ∧
    (run_conversion_worker "ffmpeg" filesBatch optsNoShutdown).outcomes =
      (filesBatch.take 2).map
        (fun f => convert f.env (workerArgs optsNoShutdown f.filepath) "ffmpeg") := by
  have h := worker_fail_fast "ffmpeg" filesBatch optsNoShutdown 1
    ⟨"b.mp4", envProbeFails⟩ (.ffmpegError "test error") rfl
    (by
      intro j f hj hf
      have hj0 : j = 0 := Nat.lt_one_iff.mp hj
      subst hj0
      cases hf
      rfl)
    rfl
  exact h
